import Mathlib

/-!
Verification of the vehicle motion / telemetry simulation engine of the
Vehicle-Telemetry-Dashboard repository.

The model is a shallow embedding of `src/server/utils/vehicle-simulation.ts`
(the current simulation module) and, where claims refer to them, of the later
iteration in `src/unnamed/part_010` (suffix `2` on names below).

Number representation: all JS numbers are modelled as exact rationals (`ℚ`);
floating-point rounding is not modelled.  The transcendental helpers
`haversineKm`, `bearingDeg`, `Math.exp` and `Math.pow(·, 1.2)` are not
expressible over `ℚ`, so every function that calls them is parametrised over
them (`hav`, `bear`, `expQ`, `pow12`), keeping exactly the source's call
shapes; properties of the real functions that a proof needs (e.g. haversine
is nonnegative, and zero on coincident points) appear as explicit hypotheses.
`Math.random()` draws are passed in as explicit jitter/roll parameters.
-/

/-- clamp from vehicle-simulation.ts: `Math.max(min, Math.min(max, n))`. -/
def clampQ (n lo hi : ℚ) : ℚ := max lo (min hi n)

/-- A GeoJSON coordinate pair `[lng, lat]`. -/
abbrev Coord := ℚ × ℚ

/-- A `{ longitude, latitude }` record (the TS `Location` type). -/
structure Location where
  longitude : ℚ
  latitude : ℚ
  deriving DecidableEq

/-- One LineString feature; we keep only the geometry coordinates, which is
all `getRouteCoordinates` ever reads. -/
structure LineStringFeature where
  coordinates : List Coord
  deriving DecidableEq

/-- A GeoJSON FeatureCollection of LineStrings. -/
structure FeatureCollection where
  features : List LineStringFeature
  deriving DecidableEq

/-- getRouteCoordinates: `geoJSON?.features?.[0]?.geometry?.coordinates`,
with `[]` when absent. -/
def getRouteCoordinates (g : FeatureCollection) : List Coord :=
  match g.features with
  | [] => []
  | f :: _ => f.coordinates

/-- The `currentData` block of a vehicle. -/
structure CurrentData where
  timestamp : ℚ
  odometer : ℚ
  fuelLevel : ℚ
  fuelConsumption : ℚ
  engineOilTemp : ℚ
  engineCoolantTemp : ℚ
  emergencyLights : Bool
  latitude : ℚ
  longitude : ℚ
  heading : ℚ
  speed : ℚ
  deriving DecidableEq

/-- One historical telemetry sample. -/
structure TelemetryData where
  timestamp : ℚ
  odometer : ℚ
  fuelLevel : ℚ
  fuelConsumption : ℚ
  engineOilTemp : ℚ
  engineCoolantTemp : ℚ
  emergencyLights : Bool
  deriving DecidableEq

/-- The route block of a vehicle (current module iteration). -/
structure RouteState where
  geoJSON : FeatureCollection
  segIndex : ℕ
  segOffset : ℚ
  atEnd : Bool
  deriving DecidableEq

/-- A vehicle of the current module iteration. -/
structure Vehicle where
  id : String
  name : String
  historicalData : List TelemetryData
  currentData : CurrentData
  route : RouteState
  deriving DecidableEq

/-- Length (as given by the abstract haversine `hav`) of the route segment
from point `j` to point `j+1`; `hav` takes `(lat0, lng0, lat1, lng1)` exactly
like the source's `haversineKm`. -/
def segKmAt (hav : ℚ → ℚ → ℚ → ℚ → ℚ) (coords : List Coord) (j : ℕ) : ℚ :=
  hav (coords.getD j (0, 0)).2 (coords.getD j (0, 0)).1
      (coords.getD (j + 1) (0, 0)).2 (coords.getD (j + 1) (0, 0)).1

/-- Initial bearing (abstract `bear`, argument order `(lat0, lng0, lat1, lng1)`
like the source's `bearingDeg`) of the route segment from point `j`. -/
def bearAt (bear : ℚ → ℚ → ℚ → ℚ → ℚ) (coords : List Coord) (j : ℕ) : ℚ :=
  bear (coords.getD j (0, 0)).2 (coords.getD j (0, 0)).1
      (coords.getD (j + 1) (0, 0)).2 (coords.getD (j + 1) (0, 0)).1

/-- Sum of the segment lengths of the route from segment `i` on
(segments are `0 … coords.length - 2`).  `sumSegFrom hav coords i - offset`
is the total remaining route length seen from cursor `(i, offset)`. -/
def sumSegFrom (hav : ℚ → ℚ → ℚ → ℚ → ℚ) (coords : List Coord) (i : ℕ) : ℚ :=
  ((List.range (coords.length - 1 - i)).map (fun k => segKmAt hav coords (i + k))).sum

/-- The `while (distance > 0 && i < routeLength - 1)` loop of
`moveAlongRoute`, written with an explicit fuel parameter (the loop advances
`i` on every iteration that does not break, so `coords.length` fuel is always
enough).  Returns the final `(distance, i, offset)`. -/
def advanceLoop (hav : ℚ → ℚ → ℚ → ℚ → ℚ) (coords : List Coord) :
    ℕ → ℚ → ℕ → ℚ → ℚ × ℕ × ℚ
  | 0, d, i, off => (d, i, off)
  | fuel + 1, d, i, off =>
    if 0 < d ∧ i < coords.length - 1 then
      let segKm := segKmAt hav coords i
      let remaining := segKm - off
      if d < remaining then
        (0, i, off + d)
      else
        advanceLoop hav coords fuel (d - remaining) (i + 1) 0
    else
      (d, i, off)

/-- The guarded divisor of the interpolation step of `moveAlongRoute`:
`Math.max(1e-6, haversineKm(...))`. -/
def interpSegKm (hav : ℚ → ℚ → ℚ → ℚ → ℚ) (coords : List Coord) (i : ℕ) : ℚ :=
  max (1 / 1000000) (segKmAt hav coords i)

/-- moveAlongRoute from vehicle-simulation.ts.  `hav`/`bear` abstract the
transcendental `haversineKm`/`bearingDeg`.  `Math.max(0, routeLength - 2)` is
rendered as truncated `ℕ` subtraction, which agrees with it for every
`routeLength ≥ 0`. -/
def moveAlongRoute (hav bear : ℚ → ℚ → ℚ → ℚ → ℚ) (v : Vehicle) (distance : ℚ) :
    Vehicle :=
  let coords := getRouteCoordinates v.route.geoJSON
  let routeLength := coords.length
  if v.route.atEnd = true ∨ routeLength < 2 ∨ distance ≤ 0 then v
  else
    let res := advanceLoop hav coords routeLength distance v.route.segIndex v.route.segOffset
    let i := res.2.1
    let offset := res.2.2
    if routeLength - 1 ≤ i then
      -- reached end: snap to the last point, clamp cursor to the last segment
      let endPt := coords.getD (routeLength - 1) (0, 0)
      let si := routeLength - 2
      { v with
        currentData := { v.currentData with latitude := endPt.2, longitude := endPt.1 }
        route := { v.route with segIndex := si, segOffset := segKmAt hav coords si, atEnd := true } }
    else
      -- interpolate position on current segment
      let p0 := coords.getD i (0, 0)
      let p1 := coords.getD (i + 1) (0, 0)
      let segKm := interpSegKm hav coords i
      let t := offset / segKm
      { v with
        currentData := { v.currentData with
          latitude := p0.2 + (p1.2 - p0.2) * t
          longitude := p0.1 + (p1.1 - p0.1) * t
          heading := bearAt bear coords i }
        route := { v.route with segIndex := i, segOffset := offset } }

/-- Constants of vehicle-simulation.ts. -/
def TICK_RATE_MS : ℚ := 1000

/-- Tank capacity constant of vehicle-simulation.ts. -/
def TANK_CAPACITY_L : ℚ := 93

/-- History ring-buffer capacity. -/
def MAX_HISTORY : ℕ := 3600

/-- The three `rand(..)` draws of one `pushTelemetry` call. -/
structure TelemetryRand where
  idleJitter : ℚ    -- rand(-0.1, 0.1) added to the 0.7 L/h idle rate
  coolantJitter : ℚ -- rand(-0.2, 0.2)
  oilJitter : ℚ     -- rand(-0.3, 0.3)
  deriving DecidableEq

/-- pushTelemetry from vehicle-simulation.ts.  `expQ` abstracts `Math.exp`;
the code computes `dtSec = TICK_RATE_MS / 1000` (a constant), so the
smoothing factor is `1 - expQ (-(TICK_RATE_MS / 1000 / 60))` no matter how
much wall-clock time the tick actually covered. -/
def pushTelemetry (expQ : ℚ → ℚ) (r : TelemetryRand) (v : Vehicle)
    (now distanceKm instLPer100km : ℚ) : Vehicle :=
  let idleLph := 7 / 10 + r.idleJitter
  let litersUsed :=
    if v.currentData.speed < 2 then idleLph * (TICK_RATE_MS / 1000) / 3600
    else instLPer100km * distanceKm / 100
  let inst := if v.currentData.speed < 2 then 0 else instLPer100km
  let odometer := v.currentData.odometer + max 0 distanceKm
  let fuelLevel := clampQ (v.currentData.fuelLevel - litersUsed / TANK_CAPACITY_L * 100) 0 100
  let dtSec := TICK_RATE_MS / 1000
  let alpha := 1 - expQ (-(dtSec / 60))
  let coolantTarget := 88 + clampQ ((v.currentData.speed - 40) * (6 / 100)) (-5) 7
  let oilTarget := 95 + clampQ ((v.currentData.speed - 40) * (5 / 100)) (-8) 10
  let coolant := clampQ
    (v.currentData.engineCoolantTemp +
      (coolantTarget - v.currentData.engineCoolantTemp) * alpha + r.coolantJitter) 70 100
  let oil := clampQ
    (v.currentData.engineOilTemp +
      (oilTarget - v.currentData.engineOilTemp) * alpha + r.oilJitter) 75 115
  let point : TelemetryData :=
    { timestamp := now, odometer := odometer, fuelLevel := fuelLevel,
      fuelConsumption := inst, engineOilTemp := oil, engineCoolantTemp := coolant,
      emergencyLights := v.currentData.emergencyLights }
  let hist0 := v.historicalData ++ [point]
  let hist := if MAX_HISTORY < hist0.length then hist0.tail else hist0
  { v with
    currentData := { v.currentData with
      odometer := odometer, fuelLevel := fuelLevel,
      engineCoolantTemp := coolant, engineOilTemp := oil }
    historicalData := hist }

/-- The per-vehicle emergency-lights entry of the `emergencyStates` map. -/
structure EmergencyState where
  isOn : Bool
  nextChangeAt : ℚ
  deriving DecidableEq

/-- The emergency-lights state machine step inside `tick` (identical in both
module iterations).  `hold1` is the `rand(EMERGENCY_MIN_HOLD_MS,
EMERGENCY_MAX_HOLD_MS)` draw used when the map has no entry yet, `hold2` the
one used on a toggle, `roll` the `Math.random()` toggle roll.  `Date.now()`
inside the block is the tick's `now`. -/
def emergencyStep (now hold1 hold2 roll : ℚ) (st : Option EmergencyState) :
    EmergencyState :=
  let state := st.getD { isOn := false, nextChangeAt := now + (⌊hold1⌋ : ℤ) }
  if state.nextChangeAt ≤ now then
    if roll < 1 / 5 then
      { isOn := !state.isOn, nextChangeAt := now + (⌊hold2⌋ : ℤ) }
    else
      { state with nextChangeAt := now + 5000 }
  else state

/-- getVehicle over the module-level `vehicles` array:
`vehicles.find((v) => v.id === id)`. -/
def getVehicleL (vehicles : List Vehicle) (id : String) : Option Vehicle :=
  vehicles.find? (fun v => v.id == id)

/-- Replace the first list entry satisfying `p` by its image under `f`
(the TS code mutates the object returned by `find`, i.e. the first match). -/
def updateFirst (p : Vehicle → Bool) (f : Vehicle → Vehicle) :
    List Vehicle → List Vehicle
  | [] => []
  | v :: vs => if p v then f v :: vs else v :: updateFirst p f vs

/-- The mutation body of `setVehicleRoute` once validation passed: replace
the route, reset the cursor, snap position to the route's first point and
heading to the first segment's bearing. -/
def applyNewRoute (bear : ℚ → ℚ → ℚ → ℚ → ℚ) (g : FeatureCollection) (v : Vehicle) :
    Vehicle :=
  let coords := getRouteCoordinates g
  let c0 := coords.getD 0 (0, 0)
  { v with
    route := { geoJSON := g, segIndex := 0, segOffset := 0, atEnd := false }
    currentData := { v.currentData with
      longitude := c0.1, latitude := c0.2, heading := bearAt bear coords 0 } }

/-- setVehicleRoute from vehicle-simulation.ts, acting on the registry list;
returns the boolean result together with the updated registry (the function
is total: it never throws). -/
def setVehicleRouteL (bear : ℚ → ℚ → ℚ → ℚ → ℚ) (vehicles : List Vehicle)
    (id : String) (g : FeatureCollection) : Bool × List Vehicle :=
  match getVehicleL vehicles id with
  | none => (false, vehicles)
  | some _ =>
    if (getRouteCoordinates g).length < 2 then (false, vehicles)
    else (true, updateFirst (fun v => v.id == id) (applyNewRoute bear g) vehicles)

/-- The random draws of one `tick` loop iteration for one vehicle
(current module iteration). -/
structure TickRand where
  speedJitter : ℚ    -- rand(-2, 2) speed wander
  emergencyHold1 : ℚ
  emergencyHold2 : ℚ
  emergencyRoll : ℚ
  instJitter : ℚ     -- rand(-0.3, 0.3) on instantaneous consumption
  telem : TelemetryRand
  deriving DecidableEq

/-- Inside `tick`, a finished route triggers
`setVehicleRoute(vehicle.id, geoJSON)` with the awaited
`generateRandomRoute` result; on this vehicle that amounts to applying the
new route when it has at least 2 points and doing nothing otherwise. -/
def applyRouteIfValid (bear : ℚ → ℚ → ℚ → ℚ → ℚ) (g : FeatureCollection)
    (v : Vehicle) : Vehicle :=
  if (getRouteCoordinates g).length < 2 then v else applyNewRoute bear g v

/-- One vehicle's pass through `tick(dtSec)` of vehicle-simulation.ts.
`dtSec` is `(now - lastTick) / 1000`, the actual elapsed time handed in by
the `setInterval` driver; `genResult` is the geoJSON produced by the awaited
`generateRandomRoute` call when the route is exhausted (on a fetch failure
that result is a single-point LineString, which `setVehicleRoute` rejects);
`pow12` abstracts `Math.pow(·, 1.2)`.  The several `Date.now()` reads inside
one iteration are modelled as the single instant `now`. -/
def tickVehicle (hav bear : ℚ → ℚ → ℚ → ℚ → ℚ) (expQ pow12 : ℚ → ℚ)
    (r : TickRand) (now dtSec : ℚ) (genResult : FeatureCollection)
    (v : Vehicle) (est : Option EmergencyState) : Vehicle × EmergencyState :=
  -- small speed wander
  let v := { v with currentData := { v.currentData with
    speed := clampQ (v.currentData.speed + r.speedJitter) 0 60 } }
  -- emergency lights state machine
  let st := emergencyStep now r.emergencyHold1 r.emergencyHold2 r.emergencyRoll est
  let v := { v with currentData := { v.currentData with emergencyLights := st.isOn } }
  -- invalid route triggers regeneration
  let v :=
    if (getRouteCoordinates v.route.geoJSON).length < 2 then
      { v with route := { v.route with atEnd := true } }
    else v
  let distance := v.currentData.speed * (dtSec / 3600)
  let v := moveAlongRoute hav bear v distance
  let v := if v.route.atEnd then applyRouteIfValid bear genResult v else v
  let inst := clampQ
    (v.currentData.fuelConsumption + 15 / 1000 * pow12 v.currentData.speed + r.instJitter)
    (7 / 2) 20
  let v := pushTelemetry expQ r.telem v now distance inst
  let v := { v with currentData := { v.currentData with timestamp := now } }
  let v := if v.route.atEnd then
      { v with currentData := { v.currentData with speed := 0 } }
    else v
  (v, st)

/-- Tick interval of the later iteration (src/unnamed/part_010). -/
def TICK_RATE_MS2 : ℚ := 2000

/-- Three minutes before relocating a stuck vehicle (part_010). -/
def ROUTE_FAILURE_TIMEOUT_MS : ℚ := 180000

/-- Regional ambulance stations across South Australia (part_010), in source
order. -/
def REGIONAL_STATIONS : List Location :=
  [⟨138.6007, -34.92866⟩,   -- Adelaide CBD - King William St
   ⟨138.62376, -34.92118⟩,  -- North Adelaide - O'Connell St
   ⟨138.59851, -34.94668⟩,  -- South Adelaide - Unley Rd
   ⟨138.58195, -34.90495⟩,  -- West Adelaide - Port Rd
   ⟨138.63501, -34.93845⟩,  -- East Adelaide - Magill Rd
   ⟨138.76234, -34.96389⟩,  -- Mount Barker
   ⟨139.07483, -35.11949⟩,  -- Murray Bridge
   ⟨138.52105, -34.83611⟩,  -- Gawler
   ⟨138.73442, -34.72553⟩,  -- Elizabeth
   ⟨138.51859, -35.4697⟩,   -- Victor Harbor
   ⟨138.68737, -35.55326⟩,  -- Goolwa
   ⟨138.6018, -34.72998⟩,   -- Salisbury
   ⟨137.77556, -32.49268⟩,  -- Port Augusta
   ⟨137.20869, -31.51997⟩,  -- Port Pirie
   ⟨135.85658, -31.57719⟩,  -- Whyalla
   ⟨138.59167, -34.45⟩,     -- Tanunda (Barossa)
   ⟨138.83833, -34.11667⟩,  -- Clare
   ⟨138.40833, -35.16667⟩,  -- McLaren Vale
   ⟨138.28333, -35.61667⟩]  -- Yankalilla

/-- Fallback locations when snap fails: `REGIONAL_STATIONS.slice(0, 5)`. -/
def FALLBACK_LOCATIONS : List Location := REGIONAL_STATIONS.take 5

/-- One entry of a route's speed profile: `{ from, to, speedKmh }`
(`from`/`to` are way-point indices; renamed since `from` is a Lean keyword). -/
structure SpeedSeg where
  fromIdx : ℕ
  toIdx : ℕ
  speedKmh : ℚ
  deriving DecidableEq

/-- The route block of a part_010 vehicle (adds the optional speed profile). -/
structure Route2 where
  geoJSON : FeatureCollection
  speedProfile : Option (List SpeedSeg)
  segIndex : ℕ
  segOffset : ℚ
  atEnd : Bool
  deriving DecidableEq

/-- A part_010 vehicle (adds the optional `nextRouteGenAt` backoff stamp). -/
structure Vehicle2 where
  id : String
  name : String
  historicalData : List TelemetryData
  currentData : CurrentData
  route : Route2
  nextRouteGenAt : Option ℚ
  deriving DecidableEq

/-- The per-vehicle stuck-tracking entry of `vehicleStuckState` (part_010). -/
structure StuckState where
  failedAt : ℚ
  retryCount : ℕ
  deriving DecidableEq

/-- classifyAdelaideSpeedLimit (part_010). -/
def classifyAdelaideSpeedLimit (rawKmh : ℚ) : ℚ :=
  if 90 ≤ rawKmh then 100
  else if 75 ≤ rawKmh then 80
  else if 58 ≤ rawKmh then 60
  else 50

/-- minMovingFloorFor (part_010). -/
def minMovingFloorFor (limitKmh : ℚ) : ℚ :=
  if 100 ≤ limitKmh then 30
  else if 80 ≤ limitKmh then 30
  else if 60 ≤ limitKmh then 20
  else 10

/-- moveAlongRoute of part_010 — the same algorithm as `moveAlongRoute`,
duplicated on the part_010 vehicle shape. -/
def moveAlongRoute2 (hav bear : ℚ → ℚ → ℚ → ℚ → ℚ) (v : Vehicle2) (distance : ℚ) :
    Vehicle2 :=
  let coords := getRouteCoordinates v.route.geoJSON
  let routeLength := coords.length
  if v.route.atEnd = true ∨ routeLength < 2 ∨ distance ≤ 0 then v
  else
    let res := advanceLoop hav coords routeLength distance v.route.segIndex v.route.segOffset
    let i := res.2.1
    let offset := res.2.2
    if routeLength - 1 ≤ i then
      let endPt := coords.getD (routeLength - 1) (0, 0)
      let si := routeLength - 2
      { v with
        currentData := { v.currentData with latitude := endPt.2, longitude := endPt.1 }
        route := { v.route with segIndex := si, segOffset := segKmAt hav coords si, atEnd := true } }
    else
      let p0 := coords.getD i (0, 0)
      let p1 := coords.getD (i + 1) (0, 0)
      let segKm := interpSegKm hav coords i
      let t := offset / segKm
      { v with
        currentData := { v.currentData with
          latitude := p0.2 + (p1.2 - p0.2) * t
          longitude := p0.1 + (p1.1 - p0.1) * t
          heading := bearAt bear coords i }
        route := { v.route with segIndex := i, segOffset := offset } }

/-- pushTelemetry of part_010; identical to `pushTelemetry` except that the
tick-rate constant is 2000 ms. -/
def pushTelemetry2 (expQ : ℚ → ℚ) (r : TelemetryRand) (v : Vehicle2)
    (now distanceKm instLPer100km : ℚ) : Vehicle2 :=
  let idleLph := 7 / 10 + r.idleJitter
  let litersUsed :=
    if v.currentData.speed < 2 then idleLph * (TICK_RATE_MS2 / 1000) / 3600
    else instLPer100km * distanceKm / 100
  let inst := if v.currentData.speed < 2 then 0 else instLPer100km
  let odometer := v.currentData.odometer + max 0 distanceKm
  let fuelLevel := clampQ (v.currentData.fuelLevel - litersUsed / TANK_CAPACITY_L * 100) 0 100
  let dtSec := TICK_RATE_MS2 / 1000
  let alpha := 1 - expQ (-(dtSec / 60))
  let coolantTarget := 88 + clampQ ((v.currentData.speed - 40) * (6 / 100)) (-5) 7
  let oilTarget := 95 + clampQ ((v.currentData.speed - 40) * (5 / 100)) (-8) 10
  let coolant := clampQ
    (v.currentData.engineCoolantTemp +
      (coolantTarget - v.currentData.engineCoolantTemp) * alpha + r.coolantJitter) 70 100
  let oil := clampQ
    (v.currentData.engineOilTemp +
      (oilTarget - v.currentData.engineOilTemp) * alpha + r.oilJitter) 75 115
  let point : TelemetryData :=
    { timestamp := now, odometer := odometer, fuelLevel := fuelLevel,
      fuelConsumption := inst, engineOilTemp := oil, engineCoolantTemp := coolant,
      emergencyLights := v.currentData.emergencyLights }
  let hist0 := v.historicalData ++ [point]
  let hist := if MAX_HISTORY < hist0.length then hist0.tail else hist0
  { v with
    currentData := { v.currentData with
      odometer := odometer, fuelLevel := fuelLevel,
      engineCoolantTemp := coolant, engineOilTemp := oil }
    historicalData := hist }

/-- The `pickLocalFallback` closure of part_010's
`generateNearbyCoordinates`, with its default 30 km radius: a random
regional station whose distance from the base lies in `[minKm, 30]` km, or
— as a last resort — the base itself.  `pickRoll` is the `Math.random()`
draw of the pick. -/
def pickLocalFallback2 (hav : ℚ → ℚ → ℚ → ℚ → ℚ) (base : Location)
    (minKm pickRoll : ℚ) : Location :=
  let nearby := REGIONAL_STATIONS.filter (fun loc =>
    decide (minKm ≤ hav base.latitude base.longitude loc.latitude loc.longitude) &&
    decide (hav base.latitude base.longitude loc.latitude loc.longitude ≤ 30))
  if 0 < nearby.length then
    nearby.getD (⌊pickRoll * (nearby.length : ℚ)⌋).toNat base
  else base   -- as a last resort, return the base itself

/-- generateNearbyCoordinates of part_010.  The candidate offsets
`dLat = deltaKm·cos(bearing)/111` and `dLon = deltaKm·sin(bearing)/(111·cos(lat))`
involve transcendental functions of the two random draws and are passed in
directly; `snapResult` is the outcome of the snap fetch (`none` = the call
threw); `pickRoll` is the `Math.random()` of the fallback pick. -/
def generateNearbyCoordinates2 (hav : ℚ → ℚ → ℚ → ℚ → ℚ) (base : Location)
    (minKm maxKm : ℚ) (attemptNum : ℕ) (dLat dLon : ℚ)
    (snapResult : Option Location) (pickRoll : ℚ) : Location :=
  -- dynamically reduce maxKm on repeated failures
  let finalMaxKm := max (minKm + 1) (maxKm - (attemptNum : ℚ) * 2)
  let _candidate : Location := ⟨base.longitude + dLon, base.latitude + dLat⟩
  match snapResult with
  | some snapped =>
    let dist := hav base.latitude base.longitude snapped.latitude snapped.longitude
    if dist ≤ finalMaxKm * (18 / 10) then snapped
    else pickLocalFallback2 hav base minKm pickRoll
  | none => pickLocalFallback2 hav base minKm pickRoll

/-- The random draws of one part_010 `tick` loop iteration for one vehicle. -/
structure TickRand2 where
  speedJitter : ℚ    -- rand(-4, 4) around the classified limit
  emergencyHold1 : ℚ
  emergencyHold2 : ℚ
  emergencyRoll : ℚ
  stationRoll : ℚ    -- Math.random() choosing the relocation station
  instJitter : ℚ
  telem : TelemetryRand
  deriving DecidableEq

/-- The target-speed determination at the top of the part_010 tick loop:
default 50, overridden by the speed-profile entry covering the current
segment index. -/
def speedTarget2 (v : Vehicle2) : ℚ :=
  match v.route.speedProfile with
  | some profile =>
    if 0 < profile.length then
      match profile.find? (fun p =>
          decide (p.fromIdx ≤ v.route.segIndex) && decide (v.route.segIndex < p.toIdx)) with
      | some m => m.speedKmh
      | none => 50
    else 50
  | none => 50

/-- The speed update of the part_010 tick loop: quantize the target to
Adelaide limits, jitter, apply the moving floor, and ease toward the desired
speed at a bounded acceleration. -/
def speedStep2 (r : TickRand2) (dtSec : ℚ) (v : Vehicle2) : Vehicle2 :=
  let limit := classifyAdelaideSpeedLimit (speedTarget2 v)
  let jittered := clampQ (limit + r.speedJitter) 0 110
  let floorKmh := minMovingFloorFor limit
  let current := v.currentData.speed
  let desired := max jittered floorKmh
  let maxDelta := 12 * (dtSec / 2)
  let delta := clampQ (desired - current) (-maxDelta) maxDelta
  { v with currentData := { v.currentData with speed := clampQ (current + delta) 0 110 } }

/-- The invalid-route check of the tick loop: fewer than 2 coordinates
forces `atEnd` (triggering regeneration). -/
def invalidRouteStep2 (v : Vehicle2) : Vehicle2 :=
  if (getRouteCoordinates v.route.geoJSON).length < 2 then
    { v with route := { v.route with atEnd := true } }
  else v

/-- The `if (vehicle.route.atEnd)` block of the part_010 tick: stuck-timeout
relocation to a random fallback station, then route regeneration with an
8-second backoff.  Returns (vehicle, stuck state, whether work was
enqueued). -/
def atEndBlock2 (r : TickRand2) (now : ℚ) (v : Vehicle2)
    (stuck : Option StuckState) : Vehicle2 × Option StuckState × Bool :=
  if v.route.atEnd then
    -- check if vehicle is stuck and needs relocation
    let relocated :=
      match stuck with
      | some ss =>
        if ROUTE_FAILURE_TIMEOUT_MS ≤ now - ss.failedAt then
          let idx := (⌊r.stationRoll * (FALLBACK_LOCATIONS.length : ℚ)⌋).toNat
          let station := FALLBACK_LOCATIONS.getD idx ⟨0, 0⟩
          ({ v with currentData := { v.currentData with
              latitude := station.latitude, longitude := station.longitude,
              speed := 0 } },
           (none : Option StuckState))
        else (v, some ss)
      | none => (v, none)
    let v := relocated.1
    -- try to generate a new route with backoff (retryDelayMs = 8000)
    match v.nextRouteGenAt with
    | some t =>
      if now < t then
        ({ v with currentData := { v.currentData with speed := 0 } },
         relocated.2, false)
      else ({ v with nextRouteGenAt := some (now + 8000) }, relocated.2, true)
    | none => ({ v with nextRouteGenAt := some (now + 8000) }, relocated.2, true)
  else (v, stuck, false)

/-- One vehicle's pass through `tick(dtSec)` of part_010, composed of the
stages above in source order.  Route regeneration is fire-and-forget
(`enqueueApiWork`): its closure suspends on the first `await` before
mutating anything, so within the tick it only enqueues work — returned here
as the final `Bool`.  The result is `(vehicle, emergency state, stuck
state, enqueued?)`; the several `Date.now()` reads are modelled as the
single instant `now`. -/
def tick2 (hav bear : ℚ → ℚ → ℚ → ℚ → ℚ) (expQ pow12 : ℚ → ℚ) (r : TickRand2)
    (now dtSec : ℚ) (v : Vehicle2) (est : Option EmergencyState)
    (stuck : Option StuckState) :
    Vehicle2 × EmergencyState × Option StuckState × Bool :=
  let v := speedStep2 r dtSec v
  -- emergency lights state machine
  let st := emergencyStep now r.emergencyHold1 r.emergencyHold2 r.emergencyRoll est
  let v := { v with currentData := { v.currentData with emergencyLights := st.isOn } }
  let v := invalidRouteStep2 v
  let distance := v.currentData.speed * (dtSec / 3600)
  let v := moveAlongRoute2 hav bear v distance
  let step := atEndBlock2 r now v stuck
  let v := step.1
  let inst := clampQ
    (v.currentData.fuelConsumption + 15 / 1000 * pow12 v.currentData.speed + r.instJitter)
    (7 / 2) 20
  let v := pushTelemetry2 expQ r.telem v now distance inst
  let v := { v with currentData := { v.currentData with timestamp := now } }
  let v := if v.route.atEnd then
      { v with currentData := { v.currentData with speed := 0 } }
    else v
  (v, st, step.2.1, step.2.2)

/-!  Concrete instances used by witnesses and counterexamples.  The abstract
transcendental parameters are instantiated with simple rational functions;
each use site documents in what way the instantiation agrees with the real
function on the points the run actually touches. -/

/-- Constant-zero haversine stand-in.  It agrees with the real `haversineKm`
on every pair of coincident points (`haversineKm(p, p) = 0` exactly), which
is the only kind of pair the runs below evaluate it on. -/
def hav0 : ℚ → ℚ → ℚ → ℚ → ℚ := fun _ _ _ _ => 0

/-- Constant-one segment-length stand-in (a generic positive length). -/
def hav1 : ℚ → ℚ → ℚ → ℚ → ℚ := fun _ _ _ _ => 1

/-- Constant-1000 segment-length stand-in (a long segment, so a short
advance stays strictly inside it). -/
def hav1000 : ℚ → ℚ → ℚ → ℚ → ℚ := fun _ _ _ _ => 1000

/-- Haversine stand-in for a base point far outside South Australia: zero on
coincident points and 9000 km otherwise.  The real `haversineKm` from
`(lat, lng) = (0, 0)` to every `REGIONAL_STATIONS` entry is also thousands
of kilometres, far above the 30 km fallback radius, so both sides of every
comparison the run makes agree with the real function. -/
def havFar : ℚ → ℚ → ℚ → ℚ → ℚ := fun lat1 lng1 lat2 lng2 =>
  if lat1 = lat2 ∧ lng1 = lng2 then 0 else 9000

/-- Constant-zero bearing stand-in. -/
def bear0 : ℚ → ℚ → ℚ → ℚ → ℚ := fun _ _ _ _ => 0

/-- Identity stand-in for `Math.exp` (any injective function separates the
nominal-dt smoothing factor from the actual-dt one). -/
def idQ : ℚ → ℚ := fun x => x

/-- Constant-zero stand-in for `Math.pow(·, 1.2)`. -/
def pow0 : ℚ → ℚ := fun _ => 0

/-- Zero telemetry jitter. -/
def tr0 : TelemetryRand := ⟨0, 0, 0⟩

/-- Baseline `currentData` used by the concrete vehicles below: position
`(5, 5)`, speed 40 km/h, fuel 50 %, consumption base 10 L/100km, coolant
88 °C, oil 95 °C. -/
def cd0 : CurrentData :=
  { timestamp := 0, odometer := 0, fuelLevel := 50, fuelConsumption := 10,
    engineOilTemp := 95, engineCoolantTemp := 88, emergencyLights := false,
    latitude := 5, longitude := 5, heading := 0, speed := 40 }

/-- A FeatureCollection holding one LineString with the given coordinates. -/
def mkGeo (cs : List Coord) : FeatureCollection := ⟨[⟨cs⟩]⟩

/-- A vehicle already at the end of its route. -/
def vAtEnd : Vehicle :=
  ⟨"amb-001", "Vehicle 1", [], cd0, ⟨mkGeo [(0, 0), (0, 1)], 0, 0, true⟩⟩

/-- A vehicle at the start of a straight 2-point route, not at end. -/
def vFresh : Vehicle :=
  ⟨"amb-001", "Vehicle 1", [], cd0, ⟨mkGeo [(0, 0), (0, 1)], 0, 0, false⟩⟩

/-- A degenerate but accepted route: two coincident points.  Both haversine
segment lengths are exactly 0, so the total remaining length from the start
cursor is 0. -/
def vDegenerate : Vehicle :=
  ⟨"amb-001", "Vehicle 1", [], cd0, ⟨mkGeo [(0, 0), (0, 0)], 0, 0, false⟩⟩

/-- A vehicle at the start of a 4-point route (three segments). -/
def vFourPts : Vehicle :=
  ⟨"amb-001", "Vehicle 1", [], cd0,
   ⟨mkGeo [(0, 0), (1, 0), (2, 0), (3, 0)], 0, 0, false⟩⟩

/-- A stationary (idling) vehicle: speed 0. -/
def vIdle : Vehicle :=
  ⟨"amb-001", "Vehicle 1", [], { cd0 with speed := 0 },
   ⟨mkGeo [(0, 0), (0, 1)], 0, 0, false⟩⟩

/-- A 2-point replacement route. -/
def gNew : FeatureCollection := mkGeo [(1, 2), (3, 4)]

/-- A FeatureCollection with no features (its coordinate list is empty). -/
def emptyGeo : FeatureCollection := ⟨[]⟩

/-- Vehicle used by the C5 counterexample: coolant 80 °C (away from its
88 °C target so the smoothing factor is visible), speed 40, on a long
2-point route. -/
def vC5 : Vehicle :=
  ⟨"amb-001", "Vehicle 1", [], { cd0 with engineCoolantTemp := 80 },
   ⟨mkGeo [(0, 0), (0, 1)], 0, 0, false⟩⟩

/-- Zero tick randomness (current module iteration). -/
def trZero : TickRand := ⟨0, 0, 0, 0, 0, tr0⟩

/-- Modelled from the spec: the claimed engine-temperature smoothing factor
`alpha = 1 - exp(-dtSeconds / 60)` where `dtSeconds` is the elapsed tick
duration.  Kept separate from the code model for comparison: the code
instead derives its factor from the constant `TICK_RATE_MS / 1000`. -/
def specThermalAlpha (expQ : ℚ → ℚ) (dtSeconds : ℚ) : ℚ :=
  1 - expQ (-(dtSeconds / 60))

/-- Zero tick randomness (part_010 iteration). -/
def trZero2 : TickRand2 := ⟨0, 0, 0, 0, 0, 0, tr0⟩

/-- A part_010 vehicle already at route end (awaiting a route), with no
backoff stamp. -/
def v2Stuck : Vehicle2 :=
  ⟨"amb-001", "Vehicle 1", [], cd0, ⟨emptyGeo, none, 0, 0, true⟩, none⟩

/-- A base point far outside South Australia (in the Gulf of Guinea):
every regional station is thousands of kilometres away. -/
def baseFar : Location := ⟨0, 0⟩

/-!  Helper lemmas. -/

/-- clampQ stays at or above its lower bound. -/
theorem le_clampQ (n lo hi : ℚ) : lo ≤ clampQ n lo hi := le_max_left _ _

/-- clampQ stays at or below its upper bound when the bounds are ordered. -/
theorem clampQ_le (n lo hi : ℚ) (h : lo ≤ hi) : clampQ n lo hi ≤ hi :=
  max_le h (min_le_left _ _)

/-- The history append-then-maybe-shift of `pushTelemetry` always ends with
the sample just appended. -/
theorem getLast_push (l : List TelemetryData) (pt : TelemetryData) :
    (if MAX_HISTORY < (l ++ [pt]).length then (l ++ [pt]).tail
     else l ++ [pt]).getLast? = some pt := by
  by_cases h : MAX_HISTORY < (l ++ [pt]).length
  · rw [if_pos h]
    have hl : l ≠ [] := by
      intro hnil
      subst hnil
      norm_num [MAX_HISTORY] at h
    rw [List.tail_append_singleton_of_ne_nil hl]
    exact List.getLast?_concat _
  · rw [if_neg h]
    exact List.getLast?_concat _

/-- C3: with a non-positive distance, a route of fewer than 2 points, or a
cursor already at the end, `moveAlongRoute` is a no-op — the vehicle (its
latitude, longitude, heading, segIndex, segOffset and atEnd included) is
returned unchanged. -/
theorem c3_noop (hav bear : ℚ → ℚ → ℚ → ℚ → ℚ) (v : Vehicle) (distance : ℚ)
    (h : v.route.atEnd = true ∨ (getRouteCoordinates v.route.geoJSON).length < 2 ∨
      distance ≤ 0) :
    moveAlongRoute hav bear v distance = v := by
  simp only [moveAlongRoute]
  rw [if_pos h]

/-- Witness for C3: a vehicle already at end is unchanged by an advance of 1 km. -/
theorem c3_noop_witness :
    (vAtEnd.route.atEnd = true ∨
      (getRouteCoordinates vAtEnd.route.geoJSON).length < 2 ∨ (1 : ℚ) ≤ 0) ∧
    moveAlongRoute hav0 bear0 vAtEnd 1 = vAtEnd :=
  ⟨Or.inl rfl, c3_noop hav0 bear0 vAtEnd 1 (Or.inl rfl)⟩

/-- C10: the interpolation divisor of `moveAlongRoute` is
`max(1e-6, segment length)`: it is at least `1e-6`, hence strictly positive
for every haversine value — in particular the division `offset / segKm` in
the interpolation branch is never a division by zero — and on a zero-length
segment (coincident adjacent route points have haversine distance 0) it is
exactly `1e-6`. -/
theorem c10_division_safe (hav : ℚ → ℚ → ℚ → ℚ → ℚ) (coords : List Coord) (i : ℕ) :
    (1 : ℚ) / 1000000 ≤ interpSegKm hav coords i ∧
    0 < interpSegKm hav coords i ∧
    (segKmAt hav coords i = 0 → interpSegKm hav coords i = 1 / 1000000) := by
  refine ⟨le_max_left _ _, lt_of_lt_of_le (by norm_num) (le_max_left _ _), fun h => ?_⟩
  rw [interpSegKm, h]
  exact max_eq_left (by norm_num)

/-- Witness for C10 at a zero-length segment (two coincident points). -/
theorem c10_division_safe_witness :
    segKmAt hav0 [((0 : ℚ), (0 : ℚ)), (0, 0)] 0 = 0 ∧
    interpSegKm hav0 [((0 : ℚ), (0 : ℚ)), (0, 0)] 0 = 1 / 1000000 ∧
    0 < interpSegKm hav0 [((0 : ℚ), (0 : ℚ)), (0, 0)] 0 :=
  ⟨rfl, (c10_division_safe hav0 [((0 : ℚ), (0 : ℚ)), (0, 0)] 0).2.2 rfl,
   (c10_division_safe hav0 [((0 : ℚ), (0 : ℚ)), (0, 0)] 0).2.1⟩

/-- C4: below 2 km/h `pushTelemetry` burns the idle rate times the nominal
tick duration — independent of the distance argument — and records 0 as the
sample's instantaneous consumption; at 2 km/h or more it burns
`instLPer100km * distanceKm / 100` litres; in both cases the new fuel level
is `clamp(old - litersUsed / tankCapacity * 100, 0, 100)`, hence always in
`[0, 100]`. -/
theorem c4_fuel (expQ : ℚ → ℚ) (r : TelemetryRand) (v : Vehicle) (now d inst : ℚ) :
    ((pushTelemetry expQ r v now d inst).currentData.fuelLevel =
      if v.currentData.speed < 2 then
        clampQ (v.currentData.fuelLevel -
          (7 / 10 + r.idleJitter) * (TICK_RATE_MS / 1000) / 3600 / TANK_CAPACITY_L * 100) 0 100
      else
        clampQ (v.currentData.fuelLevel - inst * d / 100 / TANK_CAPACITY_L * 100) 0 100) ∧
    (v.currentData.speed < 2 →
      ∃ pt : TelemetryData,
        (pushTelemetry expQ r v now d inst).historicalData.getLast? = some pt ∧
        pt.fuelConsumption = 0) ∧
    0 ≤ (pushTelemetry expQ r v now d inst).currentData.fuelLevel ∧
    (pushTelemetry expQ r v now d inst).currentData.fuelLevel ≤ 100 := by
  refine ⟨?_, ?_, ?_, ?_⟩
  · by_cases hs : v.currentData.speed < 2
    · simp only [pushTelemetry, if_pos hs]
    · simp only [pushTelemetry, if_neg hs]
  · intro hs
    refine ⟨_, getLast_push v.historicalData _, ?_⟩
    simp [hs]
  · simp only [pushTelemetry]
    exact le_clampQ _ _ _
  · simp only [pushTelemetry]
    exact clampQ_le _ _ _ (by norm_num)

/-- Witness for C4: a vehicle idling at speed 0 records 0 instantaneous
consumption in the appended sample. -/
theorem c4_fuel_witness :
    vIdle.currentData.speed < 2 ∧
    ∃ pt : TelemetryData,
      (pushTelemetry idQ tr0 vIdle 0 1 10).historicalData.getLast? = some pt ∧
      pt.fuelConsumption = 0 :=
  ⟨by decide, (c4_fuel idQ tr0 vIdle 0 1 10).2.1 (by decide)⟩

/-- One step of the history ring buffer: append, then drop the front when
over capacity. -/
theorem histStep (l : List TelemetryData) (pt : TelemetryData)
    (h : l.length ≤ MAX_HISTORY) :
    (if MAX_HISTORY < (l ++ [pt]).length then (l ++ [pt]).tail else l ++ [pt]).length ≤
      MAX_HISTORY ∧
    (if MAX_HISTORY < (l ++ [pt]).length then (l ++ [pt]).tail else l ++ [pt]) =
      (if l.length = MAX_HISTORY then l.tail else l) ++ [pt] := by
  simp only [MAX_HISTORY] at h ⊢
  have hlen : (l ++ [pt]).length = l.length + 1 := by simp
  by_cases hm : l.length = 3600
  · have hne : l ≠ [] := by
      intro h0
      rw [h0] at hm
      simp at hm
    have hcond : 3600 < (l ++ [pt]).length := by omega
    rw [if_pos hcond, if_pos hm, List.tail_append_singleton_of_ne_nil hne]
    refine ⟨?_, rfl⟩
    have htl : l.tail.length = l.length - 1 := by simp [List.length_tail]
    simp only [List.length_append, List.length_singleton, htl]
    omega
  · have hcond : ¬ 3600 < (l ++ [pt]).length := by omega
    rw [if_neg hcond, if_neg hm]
    refine ⟨?_, rfl⟩
    simp only [hlen]
    omega

/-- C6: assuming the bound held before the call (it holds initially: the
history starts empty), `pushTelemetry` keeps `historicalData.length ≤
MAX_HISTORY`, and the new history is the old one with one sample appended —
minus exactly the oldest (front) sample when the buffer was full (FIFO). -/
theorem c6_history (expQ : ℚ → ℚ) (r : TelemetryRand) (v : Vehicle) (now d inst : ℚ)
    (h : v.historicalData.length ≤ MAX_HISTORY) :
    (pushTelemetry expQ r v now d inst).historicalData.length ≤ MAX_HISTORY ∧
    ∃ pt : TelemetryData,
      (pushTelemetry expQ r v now d inst).historicalData =
        (if v.historicalData.length = MAX_HISTORY then v.historicalData.tail
         else v.historicalData) ++ [pt] :=
  ⟨(histStep v.historicalData _ h).1, _, (histStep v.historicalData _ h).2⟩

/-- Witness for C6 on a vehicle with an empty history. -/
theorem c6_history_witness :
    vFresh.historicalData.length ≤ MAX_HISTORY ∧
    ((pushTelemetry idQ tr0 vFresh 0 1 10).historicalData.length ≤ MAX_HISTORY ∧
     ∃ pt : TelemetryData,
       (pushTelemetry idQ tr0 vFresh 0 1 10).historicalData =
         (if vFresh.historicalData.length = MAX_HISTORY then vFresh.historicalData.tail
          else vFresh.historicalData) ++ [pt]) :=
  ⟨by decide, c6_history idQ tr0 vFresh 0 1 10 (by decide)⟩

/-- A cursor at or past the final point stops the loop immediately. -/
theorem advanceLoop_stop (hav : ℚ → ℚ → ℚ → ℚ → ℚ) (coords : List Coord)
    (fuel : ℕ) (d : ℚ) (i : ℕ) (off : ℚ) (h : coords.length - 1 ≤ i) :
    advanceLoop hav coords fuel d i off = (d, i, off) := by
  cases fuel with
  | zero => rfl
  | succ f =>
    simp only [advanceLoop]
    rw [if_neg]
    rintro ⟨-, hlt⟩
    omega

/-- A fully consumed distance stops the loop immediately. -/
theorem advanceLoop_idle (hav : ℚ → ℚ → ℚ → ℚ → ℚ) (coords : List Coord)
    (fuel : ℕ) (i : ℕ) (off : ℚ) :
    advanceLoop hav coords fuel 0 i off = (0, i, off) := by
  cases fuel with
  | zero => rfl
  | succ f =>
    simp only [advanceLoop]
    rw [if_neg]
    rintro ⟨h0, -⟩
    exact lt_irrefl 0 h0

/-- One loop iteration that does not break: consume the rest of segment `i`
and step to the start of segment `i + 1`. -/
theorem advanceLoop_step_else (hav : ℚ → ℚ → ℚ → ℚ → ℚ) (coords : List Coord)
    (fuel : ℕ) (d : ℚ) (i : ℕ) (off : ℚ)
    (hcond : 0 < d ∧ i < coords.length - 1)
    (hnlt : ¬ d < segKmAt hav coords i - off) :
    advanceLoop hav coords (fuel + 1) d i off =
      advanceLoop hav coords fuel (d - (segKmAt hav coords i - off)) (i + 1) 0 := by
  simp only [advanceLoop]
  rw [if_pos hcond, if_neg hnlt]

/-- Splitting off the first remaining segment of the tail sum. -/
theorem sumSegFrom_succ (hav : ℚ → ℚ → ℚ → ℚ → ℚ) (coords : List Coord) (i : ℕ)
    (h : i + 1 < coords.length) :
    sumSegFrom hav coords i = segKmAt hav coords i + sumSegFrom hav coords (i + 1) := by
  have hn : coords.length - 1 - i = (coords.length - 1 - (i + 1)) + 1 := by omega
  have hfun : ((fun k => segKmAt hav coords (i + k)) ∘ Nat.succ) =
      fun k => segKmAt hav coords (i + 1 + k) := by
    funext k
    simp only [Function.comp_apply]
    congr 1
    omega
  rw [sumSegFrom, hn, List.range_succ_eq_map, List.map_cons, List.map_map, hfun,
    List.sum_cons, Nat.add_zero]
  rfl

/-- The tail sum is nonnegative when every segment length is positive. -/
theorem sumSegFrom_nonneg (hav : ℚ → ℚ → ℚ → ℚ → ℚ) (coords : List Coord)
    (hpos : ∀ j, j + 1 < coords.length → 0 < segKmAt hav coords j) (i : ℕ) :
    0 ≤ sumSegFrom hav coords i := by
  apply List.sum_nonneg
  intro x hx
  obtain ⟨k, hk, rfl⟩ := List.mem_map.mp hx
  have hk' := List.mem_range.mp hk
  exact le_of_lt (hpos (i + k) (by omega))

/-- With positive segment lengths and a positive distance at least the total
remaining length, the traversal loop reaches the final point. -/
theorem advanceLoop_reaches (hav : ℚ → ℚ → ℚ → ℚ → ℚ) (coords : List Coord)
    (hpos : ∀ j, j + 1 < coords.length → 0 < segKmAt hav coords j) :
    ∀ fuel i, coords.length ≤ fuel + i + 1 → ∀ off d, 0 < d →
      sumSegFrom hav coords i - off ≤ d →
      coords.length - 1 ≤ (advanceLoop hav coords fuel d i off).2.1 := by
  intro fuel
  induction fuel with
  | zero =>
    intro i hfi off d hd hrem
    rw [advanceLoop_stop hav coords 0 d i off (by omega)]
    show coords.length - 1 ≤ i
    omega
  | succ fuel ih =>
    intro i hfi off d hd hrem
    by_cases hcont : i < coords.length - 1
    · have hnlt : ¬ d < segKmAt hav coords i - off := by
        intro hlt
        have hsucc := sumSegFrom_succ hav coords i (by omega)
        have hnn := sumSegFrom_nonneg hav coords hpos (i + 1)
        linarith
      rw [advanceLoop_step_else hav coords fuel d i off ⟨hd, hcont⟩ hnlt]
      have hsucc := sumSegFrom_succ hav coords i (by omega)
      by_cases hmore : i + 1 < coords.length - 1
      · refine ih (i + 1) (by omega) 0 (d - (segKmAt hav coords i - off)) ?_ ?_
        · have hsucc2 := sumSegFrom_succ hav coords (i + 1) (by omega)
          have hnn2 := sumSegFrom_nonneg hav coords hpos (i + 2)
          have hp1 := hpos (i + 1) (by omega)
          linarith
        · linarith
      · rw [advanceLoop_stop hav coords fuel _ (i + 1) 0 (by omega)]
        show coords.length - 1 ≤ i + 1
        omega
    · rw [advanceLoop_stop hav coords (fuel + 1) d i off (by omega)]
      show coords.length - 1 ≤ i
      omega

/-- C1 (amended): on a route of at least 2 points whose segments all have
positive length, with the cursor not at the end, advancing by a positive
distance at least the total remaining route length snaps the position
exactly to the final point, sets `atEnd`, and clamps the cursor to the last
valid segment (`segIndex = length - 2`, `segOffset` = that segment's full
length).  On a 2-point route of positive length `L` with the cursor at the
start, the total remaining length is `L`, so advancing by exactly `L`
satisfies the hypotheses. -/
theorem c1_reach_end_amended (hav bear : ℚ → ℚ → ℚ → ℚ → ℚ) (v : Vehicle) (d : ℚ)
    (h2 : 2 ≤ (getRouteCoordinates v.route.geoJSON).length)
    (hend : v.route.atEnd = false)
    (hd : 0 < d)
    (hpos : ∀ j, j + 1 < (getRouteCoordinates v.route.geoJSON).length →
      0 < segKmAt hav (getRouteCoordinates v.route.geoJSON) j)
    (hrem : sumSegFrom hav (getRouteCoordinates v.route.geoJSON) v.route.segIndex -
      v.route.segOffset ≤ d) :
    (moveAlongRoute hav bear v d).route.atEnd = true ∧
    (moveAlongRoute hav bear v d).currentData.latitude =
      ((getRouteCoordinates v.route.geoJSON).getD
        ((getRouteCoordinates v.route.geoJSON).length - 1) (0, 0)).2 ∧
    (moveAlongRoute hav bear v d).currentData.longitude =
      ((getRouteCoordinates v.route.geoJSON).getD
        ((getRouteCoordinates v.route.geoJSON).length - 1) (0, 0)).1 ∧
    (moveAlongRoute hav bear v d).route.segIndex =
      (getRouteCoordinates v.route.geoJSON).length - 2 ∧
    (moveAlongRoute hav bear v d).route.segOffset =
      segKmAt hav (getRouteCoordinates v.route.geoJSON)
        ((getRouteCoordinates v.route.geoJSON).length - 2) := by
  have hguard : ¬(v.route.atEnd = true ∨
      (getRouteCoordinates v.route.geoJSON).length < 2 ∨ d ≤ 0) := by
    rintro (h1 | h1 | h1)
    · rw [hend] at h1
      exact Bool.false_ne_true h1
    · omega
    · linarith
  have hreach := advanceLoop_reaches hav (getRouteCoordinates v.route.geoJSON) hpos
    (getRouteCoordinates v.route.geoJSON).length v.route.segIndex (by omega)
    v.route.segOffset d hd hrem
  simp only [moveAlongRoute]
  rw [if_neg hguard, if_pos hreach]
  exact ⟨rfl, rfl, rfl, rfl, rfl⟩

/-- Witness for C1 (amended): a 2-point route of length 1 (under the
constant-length instantiation), advanced by exactly its length from the
start, ends atEnd with the position snapped to the final point. -/
theorem c1_reach_end_witness :
    (2 ≤ (getRouteCoordinates vFresh.route.geoJSON).length ∧
     vFresh.route.atEnd = false ∧ (0 : ℚ) < 1 ∧
     sumSegFrom hav1 (getRouteCoordinates vFresh.route.geoJSON) vFresh.route.segIndex -
       vFresh.route.segOffset ≤ 1) ∧
    ((moveAlongRoute hav1 bear0 vFresh 1).route.atEnd = true ∧
     (moveAlongRoute hav1 bear0 vFresh 1).currentData.latitude =
       ((getRouteCoordinates vFresh.route.geoJSON).getD
         ((getRouteCoordinates vFresh.route.geoJSON).length - 1) (0, 0)).2 ∧
     (moveAlongRoute hav1 bear0 vFresh 1).currentData.longitude =
       ((getRouteCoordinates vFresh.route.geoJSON).getD
         ((getRouteCoordinates vFresh.route.geoJSON).length - 1) (0, 0)).1 ∧
     (moveAlongRoute hav1 bear0 vFresh 1).route.segIndex =
       (getRouteCoordinates vFresh.route.geoJSON).length - 2 ∧
     (moveAlongRoute hav1 bear0 vFresh 1).route.segOffset =
       segKmAt hav1 (getRouteCoordinates vFresh.route.geoJSON)
         ((getRouteCoordinates vFresh.route.geoJSON).length - 2)) :=
  ⟨⟨by decide, rfl, by norm_num,
    by norm_num [sumSegFrom, segKmAt, hav1, vFresh, mkGeo, getRouteCoordinates,
      List.range_succ]⟩,
   c1_reach_end_amended hav1 bear0 vFresh 1 (by decide) rfl (by norm_num)
     (fun j hj => by
       have hlen : (getRouteCoordinates vFresh.route.geoJSON).length = 2 := rfl
       rw [hlen] at hj
       have hj0 : j = 0 := by omega
       subst hj0
       norm_num [segKmAt, hav1])
     (by norm_num [sumSegFrom, segKmAt, hav1, vFresh, mkGeo, getRouteCoordinates,
       List.range_succ])⟩

/-- Counterexample to C1 as stated: on the (accepted, 2-point) degenerate
route whose two points coincide, both segment lengths are exactly 0 — the
real `haversineKm` of coincident points is exactly 0 — so the total
remaining length from the start cursor is 0, and advancing by `0 ≥ 0`
satisfies the claim's hypotheses; but `moveAlongRoute` no-ops on the
`distance ≤ 0` guard: `atEnd` stays false and the position stays at
`(5, 5)`, not at the route's final point `(0, 0)`. -/
theorem c1_counterexample :
    2 ≤ (getRouteCoordinates vDegenerate.route.geoJSON).length ∧
    vDegenerate.route.atEnd = false ∧
    sumSegFrom hav0 (getRouteCoordinates vDegenerate.route.geoJSON)
      vDegenerate.route.segIndex - vDegenerate.route.segOffset ≤ 0 ∧
    (moveAlongRoute hav0 bear0 vDegenerate 0).route.atEnd = false ∧
    (moveAlongRoute hav0 bear0 vDegenerate 0).currentData.latitude ≠
      ((getRouteCoordinates vDegenerate.route.geoJSON).getD
        ((getRouteCoordinates vDegenerate.route.geoJSON).length - 1) (0, 0)).2 := by
  have hno : moveAlongRoute hav0 bear0 vDegenerate 0 = vDegenerate := by
    simp only [moveAlongRoute]
    rw [if_pos (Or.inr (Or.inr le_rfl))]
  refine ⟨by decide, rfl, ?_, ?_, ?_⟩
  · norm_num [sumSegFrom, segKmAt, hav0, vDegenerate, mkGeo, getRouteCoordinates,
      List.range_succ]
  · rw [hno]
    rfl
  · rw [hno]
    norm_num [vDegenerate, cd0, mkGeo, getRouteCoordinates]

/-- C2: when the advance distance exactly equals the remaining length of the
current, non-final segment, the cursor lands at the start of the next
segment with zero offset: position interpolates exactly at the next
segment's start point, heading becomes the next segment's bearing, and the
route is not marked ended. -/
theorem c2_segment_boundary (hav bear : ℚ → ℚ → ℚ → ℚ → ℚ) (v : Vehicle) (d : ℚ)
    (hend : v.route.atEnd = false)
    (hi : v.route.segIndex + 1 < (getRouteCoordinates v.route.geoJSON).length - 1)
    (hd : 0 < d)
    (hrem : d = segKmAt hav (getRouteCoordinates v.route.geoJSON) v.route.segIndex -
      v.route.segOffset) :
    (moveAlongRoute hav bear v d).route.segIndex = v.route.segIndex + 1 ∧
    (moveAlongRoute hav bear v d).route.segOffset = 0 ∧
    (moveAlongRoute hav bear v d).currentData.latitude =
      ((getRouteCoordinates v.route.geoJSON).getD (v.route.segIndex + 1) (0, 0)).2 ∧
    (moveAlongRoute hav bear v d).currentData.longitude =
      ((getRouteCoordinates v.route.geoJSON).getD (v.route.segIndex + 1) (0, 0)).1 ∧
    (moveAlongRoute hav bear v d).currentData.heading =
      bearAt bear (getRouteCoordinates v.route.geoJSON) (v.route.segIndex + 1) ∧
    (moveAlongRoute hav bear v d).route.atEnd = false := by
  have hguard : ¬(v.route.atEnd = true ∨
      (getRouteCoordinates v.route.geoJSON).length < 2 ∨ d ≤ 0) := by
    rintro (h1 | h1 | h1)
    · rw [hend] at h1
      exact Bool.false_ne_true h1
    · omega
    · linarith
  have hloop : advanceLoop hav (getRouteCoordinates v.route.geoJSON)
      (getRouteCoordinates v.route.geoJSON).length d v.route.segIndex v.route.segOffset =
      (0, v.route.segIndex + 1, 0) := by
    obtain ⟨f, hf⟩ : ∃ f, (getRouteCoordinates v.route.geoJSON).length = f + 1 :=
      ⟨(getRouteCoordinates v.route.geoJSON).length - 1, by omega⟩
    rw [hf, advanceLoop_step_else hav (getRouteCoordinates v.route.geoJSON) f d
      v.route.segIndex v.route.segOffset ⟨hd, by omega⟩
      (by rw [← hrem]; exact lt_irrefl d)]
    rw [show d - (segKmAt hav (getRouteCoordinates v.route.geoJSON) v.route.segIndex -
        v.route.segOffset) = 0 from by rw [hrem]; ring]
    exact advanceLoop_idle hav (getRouteCoordinates v.route.geoJSON) f
      (v.route.segIndex + 1) 0
  simp only [moveAlongRoute]
  rw [if_neg hguard]
  simp only [hloop]
  rw [if_neg (show ¬ (getRouteCoordinates v.route.geoJSON).length - 1 ≤
    v.route.segIndex + 1 from by omega)]
  refine ⟨rfl, rfl, by simp, by simp, rfl, hend⟩

/-- Witness for C2 on a 4-point route (constant segment length 1), starting
at the cursor `(0, 0)` and advancing by exactly the first segment's length. -/
theorem c2_segment_boundary_witness :
    (vFourPts.route.atEnd = false ∧
     vFourPts.route.segIndex + 1 < (getRouteCoordinates vFourPts.route.geoJSON).length - 1 ∧
     (0 : ℚ) < 1 ∧
     (1 : ℚ) = segKmAt hav1 (getRouteCoordinates vFourPts.route.geoJSON)
       vFourPts.route.segIndex - vFourPts.route.segOffset) ∧
    ((moveAlongRoute hav1 bear0 vFourPts 1).route.segIndex = vFourPts.route.segIndex + 1 ∧
     (moveAlongRoute hav1 bear0 vFourPts 1).route.segOffset = 0 ∧
     (moveAlongRoute hav1 bear0 vFourPts 1).currentData.latitude =
       ((getRouteCoordinates vFourPts.route.geoJSON).getD (vFourPts.route.segIndex + 1) (0, 0)).2 ∧
     (moveAlongRoute hav1 bear0 vFourPts 1).currentData.longitude =
       ((getRouteCoordinates vFourPts.route.geoJSON).getD (vFourPts.route.segIndex + 1) (0, 0)).1 ∧
     (moveAlongRoute hav1 bear0 vFourPts 1).currentData.heading =
       bearAt bear0 (getRouteCoordinates vFourPts.route.geoJSON) (vFourPts.route.segIndex + 1) ∧
     (moveAlongRoute hav1 bear0 vFourPts 1).route.atEnd = false) :=
  ⟨⟨rfl, by decide, by norm_num, by norm_num [segKmAt, hav1, vFourPts, mkGeo, getRouteCoordinates]⟩,
   c2_segment_boundary hav1 bear0 vFourPts 1 rfl (by decide) (by norm_num)
     (by norm_num [segKmAt, hav1, vFourPts, mkGeo, getRouteCoordinates])⟩

/-- Updating the first vehicle matched by id updates exactly the vehicle
`find` would have returned (the TS code mutates that object in place). -/
theorem getVehicleL_updateFirst (bear : ℚ → ℚ → ℚ → ℚ → ℚ) (g : FeatureCollection)
    (vehicles : List Vehicle) (id : String) (v₀ : Vehicle)
    (h : getVehicleL vehicles id = some v₀) :
    getVehicleL (updateFirst (fun v => v.id == id) (applyNewRoute bear g) vehicles) id =
      some (applyNewRoute bear g v₀) := by
  induction vehicles with
  | nil => simp [getVehicleL] at h
  | cons a l ih =>
    by_cases ha : (a.id == id) = true
    · rw [getVehicleL, @List.find?_cons_of_pos Vehicle (fun v => v.id == id) a l ha] at h
      injection h with h'
      subst h'
      rw [updateFirst, if_pos ha, getVehicleL,
        @List.find?_cons_of_pos Vehicle (fun v => v.id == id) (applyNewRoute bear g a) l ha]
    · rw [getVehicleL, @List.find?_cons_of_neg Vehicle (fun v => v.id == id) a l ha] at h
      rw [updateFirst, if_neg ha, getVehicleL,
        @List.find?_cons_of_neg Vehicle (fun v => v.id == id) a
          (updateFirst (fun v => v.id == id) (applyNewRoute bear g) l) ha]
      exact ih h

/-- C7: `setVehicleRoute` returns a boolean (it is a total function: it
never throws).  With an unknown id or a route of fewer than 2 points it
returns false and leaves the registry — hence the vehicle — entirely
unchanged.  With a known id and a route of at least 2 points it returns
true, and the addressed vehicle gets the new route with cursor reset
(`segIndex = segOffset = 0`, `atEnd = false`), position snapped to the
route's first point, heading set to the first segment's bearing, and every
other field unchanged. -/
theorem c7_set_vehicle_route (bear : ℚ → ℚ → ℚ → ℚ → ℚ) (vehicles : List Vehicle)
    (id : String) (g : FeatureCollection) :
    ((getVehicleL vehicles id = none ∨ (getRouteCoordinates g).length < 2) →
      setVehicleRouteL bear vehicles id g = (false, vehicles)) ∧
    (∀ v₀ : Vehicle, getVehicleL vehicles id = some v₀ →
      2 ≤ (getRouteCoordinates g).length →
      (setVehicleRouteL bear vehicles id g).1 = true ∧
      getVehicleL (setVehicleRouteL bear vehicles id g).2 id =
        some (applyNewRoute bear g v₀) ∧
      (applyNewRoute bear g v₀).route.geoJSON = g ∧
      (applyNewRoute bear g v₀).route.segIndex = 0 ∧
      (applyNewRoute bear g v₀).route.segOffset = 0 ∧
      (applyNewRoute bear g v₀).route.atEnd = false ∧
      (applyNewRoute bear g v₀).currentData.longitude =
        ((getRouteCoordinates g).getD 0 (0, 0)).1 ∧
      (applyNewRoute bear g v₀).currentData.latitude =
        ((getRouteCoordinates g).getD 0 (0, 0)).2 ∧
      (applyNewRoute bear g v₀).currentData.heading =
        bearAt bear (getRouteCoordinates g) 0 ∧
      (applyNewRoute bear g v₀).id = v₀.id ∧
      (applyNewRoute bear g v₀).name = v₀.name ∧
      (applyNewRoute bear g v₀).historicalData = v₀.historicalData ∧
      (applyNewRoute bear g v₀).currentData.speed = v₀.currentData.speed ∧
      (applyNewRoute bear g v₀).currentData.odometer = v₀.currentData.odometer ∧
      (applyNewRoute bear g v₀).currentData.fuelLevel = v₀.currentData.fuelLevel ∧
      (applyNewRoute bear g v₀).currentData.fuelConsumption =
        v₀.currentData.fuelConsumption ∧
      (applyNewRoute bear g v₀).currentData.engineOilTemp =
        v₀.currentData.engineOilTemp ∧
      (applyNewRoute bear g v₀).currentData.engineCoolantTemp =
        v₀.currentData.engineCoolantTemp ∧
      (applyNewRoute bear g v₀).currentData.emergencyLights =
        v₀.currentData.emergencyLights ∧
      (applyNewRoute bear g v₀).currentData.timestamp = v₀.currentData.timestamp) := by
  refine ⟨?_, ?_⟩
  · rintro (hne | hlt)
    · simp only [setVehicleRouteL, hne]
    · simp only [setVehicleRouteL]
      rcases hv : getVehicleL vehicles id with _ | v₀
      · rfl
      · rw [if_pos hlt]
  · intro v₀ hv h2
    have hnlt : ¬ (getRouteCoordinates g).length < 2 := by omega
    simp only [setVehicleRouteL, hv]
    rw [if_neg hnlt]
    exact ⟨rfl, getVehicleL_updateFirst bear g vehicles id v₀ hv,
      rfl, rfl, rfl, rfl, rfl, rfl, rfl, rfl, rfl, rfl, rfl, rfl, rfl, rfl, rfl, rfl,
      rfl, rfl⟩

/-- Witness for C7: replacing the single registered vehicle's route with a
valid 2-point route. -/
theorem c7_set_vehicle_route_witness :
    getVehicleL [vFresh] "amb-001" = some vFresh ∧
    2 ≤ (getRouteCoordinates gNew).length ∧
    ((setVehicleRouteL bear0 [vFresh] "amb-001" gNew).1 = true ∧
     getVehicleL (setVehicleRouteL bear0 [vFresh] "amb-001" gNew).2 "amb-001" =
       some (applyNewRoute bear0 gNew vFresh) ∧
     (applyNewRoute bear0 gNew vFresh).route.geoJSON = gNew ∧
     (applyNewRoute bear0 gNew vFresh).route.segIndex = 0 ∧
     (applyNewRoute bear0 gNew vFresh).route.segOffset = 0 ∧
     (applyNewRoute bear0 gNew vFresh).route.atEnd = false ∧
     (applyNewRoute bear0 gNew vFresh).currentData.longitude =
       ((getRouteCoordinates gNew).getD 0 (0, 0)).1 ∧
     (applyNewRoute bear0 gNew vFresh).currentData.latitude =
       ((getRouteCoordinates gNew).getD 0 (0, 0)).2 ∧
     (applyNewRoute bear0 gNew vFresh).currentData.heading =
       bearAt bear0 (getRouteCoordinates gNew) 0 ∧
     (applyNewRoute bear0 gNew vFresh).id = vFresh.id ∧
     (applyNewRoute bear0 gNew vFresh).name = vFresh.name ∧
     (applyNewRoute bear0 gNew vFresh).historicalData = vFresh.historicalData ∧
     (applyNewRoute bear0 gNew vFresh).currentData.speed = vFresh.currentData.speed ∧
     (applyNewRoute bear0 gNew vFresh).currentData.odometer =
       vFresh.currentData.odometer ∧
     (applyNewRoute bear0 gNew vFresh).currentData.fuelLevel =
       vFresh.currentData.fuelLevel ∧
     (applyNewRoute bear0 gNew vFresh).currentData.fuelConsumption =
       vFresh.currentData.fuelConsumption ∧
     (applyNewRoute bear0 gNew vFresh).currentData.engineOilTemp =
       vFresh.currentData.engineOilTemp ∧
     (applyNewRoute bear0 gNew vFresh).currentData.engineCoolantTemp =
       vFresh.currentData.engineCoolantTemp ∧
     (applyNewRoute bear0 gNew vFresh).currentData.emergencyLights =
       vFresh.currentData.emergencyLights ∧
     (applyNewRoute bear0 gNew vFresh).currentData.timestamp =
       vFresh.currentData.timestamp) :=
  ⟨rfl, by decide,
   (c7_set_vehicle_route bear0 [vFresh] "amb-001" gNew).2 vFresh rfl (by decide)⟩

/-- moveAlongRoute never changes speed, coolant or oil temperature. -/
theorem moveAlongRoute_preserves (hav bear : ℚ → ℚ → ℚ → ℚ → ℚ) (v : Vehicle) (d : ℚ) :
    (moveAlongRoute hav bear v d).currentData.speed = v.currentData.speed ∧
    (moveAlongRoute hav bear v d).currentData.engineCoolantTemp =
      v.currentData.engineCoolantTemp ∧
    (moveAlongRoute hav bear v d).currentData.engineOilTemp =
      v.currentData.engineOilTemp := by
  simp only [moveAlongRoute]
  split
  · exact ⟨rfl, rfl, rfl⟩
  · split
    · exact ⟨rfl, rfl, rfl⟩
    · exact ⟨rfl, rfl, rfl⟩

/-- Projections distribute over an if on vehicles (speed). -/
theorem ite_speed (c : Prop) [Decidable c] (a b : Vehicle) :
    (if c then a else b).currentData.speed =
      if c then a.currentData.speed else b.currentData.speed := by
  split <;> rfl

/-- Projections distribute over an if on vehicles (coolant). -/
theorem ite_coolant (c : Prop) [Decidable c] (a b : Vehicle) :
    (if c then a else b).currentData.engineCoolantTemp =
      if c then a.currentData.engineCoolantTemp else b.currentData.engineCoolantTemp := by
  split <;> rfl

/-- Projections distribute over an if on vehicles (oil). -/
theorem ite_oil (c : Prop) [Decidable c] (a b : Vehicle) :
    (if c then a else b).currentData.engineOilTemp =
      if c then a.currentData.engineOilTemp else b.currentData.engineOilTemp := by
  split <;> rfl

/-- applyRouteIfValid never changes speed, coolant or oil temperature. -/
theorem applyRouteIfValid_preserves (bear : ℚ → ℚ → ℚ → ℚ → ℚ)
    (g : FeatureCollection) (v : Vehicle) :
    (applyRouteIfValid bear g v).currentData.speed = v.currentData.speed ∧
    (applyRouteIfValid bear g v).currentData.engineCoolantTemp =
      v.currentData.engineCoolantTemp ∧
    (applyRouteIfValid bear g v).currentData.engineOilTemp =
      v.currentData.engineOilTemp := by
  simp only [applyRouteIfValid, applyNewRoute]
  split
  · exact ⟨rfl, rfl, rfl⟩
  · exact ⟨rfl, rfl, rfl⟩

/-- The coolant update of pushTelemetry, as one equation: the smoothing
factor is the constant `1 - exp(-(TICK_RATE_MS/1000)/60)`. -/
theorem pushTelemetry_coolant (expQ : ℚ → ℚ) (r : TelemetryRand) (v : Vehicle)
    (now d inst : ℚ) :
    (pushTelemetry expQ r v now d inst).currentData.engineCoolantTemp =
      clampQ (v.currentData.engineCoolantTemp +
        ((88 + clampQ ((v.currentData.speed - 40) * (6 / 100)) (-5) 7) -
          v.currentData.engineCoolantTemp) * (1 - expQ (-(TICK_RATE_MS / 1000 / 60))) +
        r.coolantJitter) 70 100 := by
  simp only [pushTelemetry]

/-- The oil update of pushTelemetry, as one equation. -/
theorem pushTelemetry_oil (expQ : ℚ → ℚ) (r : TelemetryRand) (v : Vehicle)
    (now d inst : ℚ) :
    (pushTelemetry expQ r v now d inst).currentData.engineOilTemp =
      clampQ (v.currentData.engineOilTemp +
        ((95 + clampQ ((v.currentData.speed - 40) * (5 / 100)) (-8) 10) -
          v.currentData.engineOilTemp) * (1 - expQ (-(TICK_RATE_MS / 1000 / 60))) +
        r.oilJitter) 75 115 := by
  simp only [pushTelemetry]

/-- C5 (amended): over a whole tick, the engine temperatures move toward
their speed-dependent targets by the smoothing factor
`alpha = 1 - exp(-dtSec/60)` where `dtSec = TICK_RATE_MS / 1000` is the
fixed nominal tick interval — the right-hand sides below do not mention the
actual elapsed `dtSec` at all — and are then clamped to `[70, 100]` °C
(coolant) and `[75, 115]` °C (oil).  The target speed is the speed after
this tick's wander. -/
theorem c5_alpha_amended (hav bear : ℚ → ℚ → ℚ → ℚ → ℚ) (expQ pow12 : ℚ → ℚ)
    (r : TickRand) (now dtSec : ℚ) (genResult : FeatureCollection) (v : Vehicle)
    (est : Option EmergencyState) :
    (tickVehicle hav bear expQ pow12 r now dtSec genResult v est).1.currentData.engineCoolantTemp =
      clampQ (v.currentData.engineCoolantTemp +
        ((88 + clampQ ((clampQ (v.currentData.speed + r.speedJitter) 0 60 - 40) * (6 / 100))
            (-5) 7) - v.currentData.engineCoolantTemp) *
          (1 - expQ (-(TICK_RATE_MS / 1000 / 60))) +
        r.telem.coolantJitter) 70 100 ∧
    (tickVehicle hav bear expQ pow12 r now dtSec genResult v est).1.currentData.engineOilTemp =
      clampQ (v.currentData.engineOilTemp +
        ((95 + clampQ ((clampQ (v.currentData.speed + r.speedJitter) 0 60 - 40) * (5 / 100))
            (-8) 10) - v.currentData.engineOilTemp) *
          (1 - expQ (-(TICK_RATE_MS / 1000 / 60))) +
        r.telem.oilJitter) 75 115 := by
  constructor <;>
    simp only [tickVehicle, ite_coolant, ite_oil, ite_speed, ite_self,
      pushTelemetry_coolant, pushTelemetry_oil,
      (moveAlongRoute_preserves hav bear _ _).1,
      (moveAlongRoute_preserves hav bear _ _).2.1,
      (moveAlongRoute_preserves hav bear _ _).2.2,
      (applyRouteIfValid_preserves bear _ _).1,
      (applyRouteIfValid_preserves bear _ _).2.1,
      (applyRouteIfValid_preserves bear _ _).2.2]

/-- Counterexample to C5 as stated: a tick whose actual elapsed time is
`dtSec = 2` s (all jitters zero, coolant 80 °C, speed 40 km/h so the target
is 88 °C and no clamp binds).  The claim says the coolant moves by
`alpha = 1 - exp(-dtSeconds/60)` with `dtSeconds` the actual elapsed time
(2 s here, `specThermalAlpha` value); the code instead uses the constant
`TICK_RATE_MS/1000 = 1` s, and the two results differ (`1322/15 ≠ 1324/15`
under the injective stand-in `expQ = id`; `Math.exp` is likewise
injective). -/
theorem c5_counterexample :
    (tickVehicle hav1000 bear0 idQ pow0 trZero 0 2 emptyGeo vC5
      (some ⟨false, 10⟩)).1.currentData.engineCoolantTemp ≠
      clampQ (vC5.currentData.engineCoolantTemp +
        ((88 + clampQ ((vC5.currentData.speed - 40) * (6 / 100)) (-5) 7) -
          vC5.currentData.engineCoolantTemp) * specThermalAlpha idQ 2 + 0) 70 100 := by
  simp only [tickVehicle, ite_coolant, ite_oil, ite_speed, ite_self,
    pushTelemetry_coolant,
    (moveAlongRoute_preserves hav1000 bear0 _ _).1,
    (moveAlongRoute_preserves hav1000 bear0 _ _).2.1,
    (applyRouteIfValid_preserves bear0 _ _).1,
    (applyRouteIfValid_preserves bear0 _ _).2.1]
  norm_num [vC5, cd0, trZero, tr0, specThermalAlpha, idQ, clampQ, max_def, min_def,
    TICK_RATE_MS]

/-- getD of an in-range index is a member of the list. -/
theorem getD_mem {α : Type} (l : List α) (n : ℕ) (d : α) (h : n < l.length) :
    l.getD n d ∈ l := by
  induction l generalizing n with
  | nil => simp at h
  | cons a t ih =>
    cases n with
    | zero => simp [List.getD_cons_zero]
    | succ m =>
      rw [List.getD_cons_succ]
      exact List.mem_cons_of_mem a (ih m (by simpa using h))

/-- The floor-of-roll index used by the random picks is in range when the
roll is in `[0, 1)` and the list is nonempty. -/
theorem rollIdx_lt (roll : ℚ) (n : ℕ) (h0 : 0 ≤ roll) (h1 : roll < 1) (hn : 0 < n) :
    (⌊roll * (n : ℚ)⌋).toNat < n := by
  have hpos : (0 : ℚ) < (n : ℚ) := by exact_mod_cast hn
  have hup : ⌊roll * (n : ℚ)⌋ < (n : ℤ) := by
    rw [Int.floor_lt]
    push_cast
    calc roll * (n : ℚ) < 1 * (n : ℚ) := mul_lt_mul_of_pos_right h1 hpos
      _ = (n : ℚ) := one_mul _
  have hlo : 0 ≤ ⌊roll * (n : ℚ)⌋ := Int.floor_nonneg.mpr (mul_nonneg h0 (le_of_lt hpos))
  omega

/-- pickLocalFallback2 decided by the case split of the source comment:
when at least one regional station lies at distance in `[minKm, 30]` km
from the base it returns such a station, and otherwise it returns the base
itself. -/
theorem pickLocalFallback2_cases (hav : ℚ → ℚ → ℚ → ℚ → ℚ) (base : Location)
    (minKm pickRoll : ℚ) (h0 : 0 ≤ pickRoll) (h1 : pickRoll < 1) :
    ((∃ loc ∈ REGIONAL_STATIONS,
        minKm ≤ hav base.latitude base.longitude loc.latitude loc.longitude ∧
        hav base.latitude base.longitude loc.latitude loc.longitude ≤ 30) →
      ∃ loc ∈ REGIONAL_STATIONS,
        pickLocalFallback2 hav base minKm pickRoll = loc ∧
        minKm ≤ hav base.latitude base.longitude loc.latitude loc.longitude ∧
        hav base.latitude base.longitude loc.latitude loc.longitude ≤ 30) ∧
    ((¬ ∃ loc ∈ REGIONAL_STATIONS,
        minKm ≤ hav base.latitude base.longitude loc.latitude loc.longitude ∧
        hav base.latitude base.longitude loc.latitude loc.longitude ≤ 30) →
      pickLocalFallback2 hav base minKm pickRoll = base) := by
  constructor
  · rintro ⟨loc0, hmem0, hc1, hc2⟩
    have hin : loc0 ∈ REGIONAL_STATIONS.filter (fun loc =>
        decide (minKm ≤ hav base.latitude base.longitude loc.latitude loc.longitude) &&
        decide (hav base.latitude base.longitude loc.latitude loc.longitude ≤ 30)) :=
      List.mem_filter.mpr ⟨hmem0, by
        rw [Bool.and_eq_true, decide_eq_true_eq, decide_eq_true_eq]
        exact ⟨hc1, hc2⟩⟩
    have hl : 0 < (REGIONAL_STATIONS.filter (fun loc =>
        decide (minKm ≤ hav base.latitude base.longitude loc.latitude loc.longitude) &&
        decide (hav base.latitude base.longitude loc.latitude loc.longitude ≤ 30))).length :=
      List.length_pos_of_mem hin
    have heq : pickLocalFallback2 hav base minKm pickRoll =
        (REGIONAL_STATIONS.filter (fun loc =>
          decide (minKm ≤ hav base.latitude base.longitude loc.latitude loc.longitude) &&
          decide (hav base.latitude base.longitude loc.latitude loc.longitude ≤ 30))).getD
          (⌊pickRoll * (((REGIONAL_STATIONS.filter (fun loc =>
            decide (minKm ≤ hav base.latitude base.longitude loc.latitude loc.longitude) &&
            decide (hav base.latitude base.longitude loc.latitude loc.longitude ≤ 30))).length : ℕ) : ℚ)⌋).toNat
          base := by
      simp only [pickLocalFallback2]
      rw [if_pos hl]
    have hmem : (REGIONAL_STATIONS.filter (fun loc =>
        decide (minKm ≤ hav base.latitude base.longitude loc.latitude loc.longitude) &&
        decide (hav base.latitude base.longitude loc.latitude loc.longitude ≤ 30))).getD
        (⌊pickRoll * (((REGIONAL_STATIONS.filter (fun loc =>
          decide (minKm ≤ hav base.latitude base.longitude loc.latitude loc.longitude) &&
          decide (hav base.latitude base.longitude loc.latitude loc.longitude ≤ 30))).length : ℕ) : ℚ)⌋).toNat
        base ∈ REGIONAL_STATIONS.filter (fun loc =>
          decide (minKm ≤ hav base.latitude base.longitude loc.latitude loc.longitude) &&
          decide (hav base.latitude base.longitude loc.latitude loc.longitude ≤ 30)) :=
      getD_mem _ _ _ (rollIdx_lt pickRoll _ h0 h1 hl)
    have hsplit := List.mem_filter.mp hmem
    have hcond := hsplit.2
    rw [Bool.and_eq_true, decide_eq_true_eq, decide_eq_true_eq] at hcond
    exact ⟨_, hsplit.1, heq, hcond.1, hcond.2⟩
  · intro hne
    have hl : ¬ 0 < (REGIONAL_STATIONS.filter (fun loc =>
        decide (minKm ≤ hav base.latitude base.longitude loc.latitude loc.longitude) &&
        decide (hav base.latitude base.longitude loc.latitude loc.longitude ≤ 30))).length := by
      intro hl
      obtain ⟨x, hx⟩ := List.exists_mem_of_length_pos hl
      have hsplit := List.mem_filter.mp hx
      have hcond := hsplit.2
      rw [Bool.and_eq_true, decide_eq_true_eq, decide_eq_true_eq] at hcond
      exact hne ⟨x, hsplit.1, hcond.1, hcond.2⟩
    simp only [pickLocalFallback2]
    rw [if_neg hl]

/-- C8 (amended): whenever the snap call fails, or the snapped point lies
more than `1.8 ×` the attempt-reduced maximum band
(`max(minKm + 1, maxKm - 2·attempt)`) away from the **base** point, the
returned endpoint is a curated regional station whose distance from the
base lies in `[minKm, 30]` km when one exists, and otherwise the base point
itself — never an indefinite retry. -/
theorem c8_fallback_amended (hav : ℚ → ℚ → ℚ → ℚ → ℚ) (base : Location)
    (minKm maxKm : ℚ) (attemptNum : ℕ) (dLat dLon : ℚ)
    (snapResult : Option Location) (pickRoll : ℚ)
    (h0 : 0 ≤ pickRoll) (h1 : pickRoll < 1)
    (hFail : snapResult = none ∨
      ∃ s, snapResult = some s ∧
        ¬ hav base.latitude base.longitude s.latitude s.longitude ≤
          max (minKm + 1) (maxKm - (attemptNum : ℚ) * 2) * (18 / 10)) :
    ((∃ loc ∈ REGIONAL_STATIONS,
        minKm ≤ hav base.latitude base.longitude loc.latitude loc.longitude ∧
        hav base.latitude base.longitude loc.latitude loc.longitude ≤ 30) →
      ∃ loc ∈ REGIONAL_STATIONS,
        generateNearbyCoordinates2 hav base minKm maxKm attemptNum dLat dLon
          snapResult pickRoll = loc ∧
        minKm ≤ hav base.latitude base.longitude loc.latitude loc.longitude ∧
        hav base.latitude base.longitude loc.latitude loc.longitude ≤ 30) ∧
    ((¬ ∃ loc ∈ REGIONAL_STATIONS,
        minKm ≤ hav base.latitude base.longitude loc.latitude loc.longitude ∧
        hav base.latitude base.longitude loc.latitude loc.longitude ≤ 30) →
      generateNearbyCoordinates2 hav base minKm maxKm attemptNum dLat dLon
        snapResult pickRoll = base) := by
  have hred : generateNearbyCoordinates2 hav base minKm maxKm attemptNum dLat dLon
      snapResult pickRoll = pickLocalFallback2 hav base minKm pickRoll := by
    rcases hFail with hnone | ⟨s, hs, hfar⟩
    · subst hnone
      rfl
    · subst hs
      simp only [generateNearbyCoordinates2]
      rw [if_neg hfar]
  rw [hred]
  exact pickLocalFallback2_cases hav base minKm pickRoll h0 h1

/-- Witness for C8 (amended): a snap failure at a base with no station
within the 30 km band (none is even within 30 of this base) yields the base
itself through the theorem's second case. -/
theorem c8_fallback_amended_witness :
    ((0 : ℚ) ≤ 0 ∧ (0 : ℚ) < 1 ∧ (none : Option Location) = none) ∧
    (¬ ∃ loc ∈ REGIONAL_STATIONS,
        3 ≤ havFar baseFar.latitude baseFar.longitude loc.latitude loc.longitude ∧
        havFar baseFar.latitude baseFar.longitude loc.latitude loc.longitude ≤ 30) ∧
    generateNearbyCoordinates2 havFar baseFar 3 12 0 1 1 none 0 = baseFar := by
  have hno : ¬ ∃ loc ∈ REGIONAL_STATIONS,
      3 ≤ havFar baseFar.latitude baseFar.longitude loc.latitude loc.longitude ∧
      havFar baseFar.latitude baseFar.longitude loc.latitude loc.longitude ≤ 30 := by
    rintro ⟨loc, -, h3, h30⟩
    simp only [havFar, baseFar] at h3 h30
    by_cases hc : (0 : ℚ) = loc.latitude ∧ (0 : ℚ) = loc.longitude
    · rw [if_pos hc] at h3
      norm_num at h3
    · rw [if_neg hc] at h30
      norm_num at h30
  exact ⟨⟨le_refl 0, by norm_num, rfl⟩, hno,
    (c8_fallback_amended havFar baseFar 3 12 0 1 1 none 0 (le_refl 0) (by norm_num)
      (Or.inl rfl)).2 hno⟩

/-- Counterexample to C8 as stated: from the base `(0°, 0°)` — thousands of
kilometres from every South-Australian station, as the stand-in `havFar`
reflects — a failed snap makes `generateNearbyCoordinates` return the base
point itself, which is in neither the curated `FALLBACK_LOCATIONS` list nor
the full `REGIONAL_STATIONS` list; the claimed "endpoint taken from a fixed
list of known-good regional points" is therefore false. -/
theorem c8_counterexample :
    generateNearbyCoordinates2 havFar baseFar 3 12 0 1 1 none 0 = baseFar ∧
    baseFar ∉ FALLBACK_LOCATIONS ∧ baseFar ∉ REGIONAL_STATIONS := by
  refine ⟨?_, ?_, ?_⟩
  · show pickLocalFallback2 havFar baseFar 3 0 = baseFar
    norm_num [pickLocalFallback2, REGIONAL_STATIONS, havFar, baseFar, List.filter]
  · norm_num [FALLBACK_LOCATIONS, REGIONAL_STATIONS, baseFar, List.take]
  · norm_num [REGIONAL_STATIONS, baseFar]

/-- moveAlongRoute2 is a no-op on a vehicle already at route end. -/
theorem moveAlongRoute2_noop_atEnd (hav bear : ℚ → ℚ → ℚ → ℚ → ℚ) (v : Vehicle2)
    (d : ℚ) (h : v.route.atEnd = true) :
    moveAlongRoute2 hav bear v d = v := by
  simp only [moveAlongRoute2]
  rw [if_pos (Or.inl h)]

/-- invalidRouteStep2 keeps a true atEnd flag true. -/
theorem invalidRouteStep2_atEnd (v : Vehicle2) (h : v.route.atEnd = true) :
    (invalidRouteStep2 v).route.atEnd = true := by
  simp only [invalidRouteStep2]
  split
  · rfl
  · exact h

/-- pushTelemetry2 never changes position or speed. -/
theorem pushTelemetry2_lat (expQ : ℚ → ℚ) (r : TelemetryRand) (v : Vehicle2)
    (now d inst : ℚ) :
    (pushTelemetry2 expQ r v now d inst).currentData.latitude =
      v.currentData.latitude := by
  simp only [pushTelemetry2]

/-- pushTelemetry2 never changes longitude. -/
theorem pushTelemetry2_lng (expQ : ℚ → ℚ) (r : TelemetryRand) (v : Vehicle2)
    (now d inst : ℚ) :
    (pushTelemetry2 expQ r v now d inst).currentData.longitude =
      v.currentData.longitude := by
  simp only [pushTelemetry2]

/-- pushTelemetry2 never changes speed. -/
theorem pushTelemetry2_speed (expQ : ℚ → ℚ) (r : TelemetryRand) (v : Vehicle2)
    (now d inst : ℚ) :
    (pushTelemetry2 expQ r v now d inst).currentData.speed =
      v.currentData.speed := by
  simp only [pushTelemetry2]

/-- Projections distribute over an if on part_010 vehicles (latitude). -/
theorem ite_lat2 (c : Prop) [Decidable c] (a b : Vehicle2) :
    (if c then a else b).currentData.latitude =
      if c then a.currentData.latitude else b.currentData.latitude := by
  split <;> rfl

/-- Projections distribute over an if on part_010 vehicles (longitude). -/
theorem ite_lng2 (c : Prop) [Decidable c] (a b : Vehicle2) :
    (if c then a else b).currentData.longitude =
      if c then a.currentData.longitude else b.currentData.longitude := by
  split <;> rfl

/-- Projections distribute over an if on part_010 vehicles (speed). -/
theorem ite_speed2 (c : Prop) [Decidable c] (a b : Vehicle2) :
    (if c then a else b).currentData.speed =
      if c then a.currentData.speed else b.currentData.speed := by
  split <;> rfl

/-- The atEnd block on a vehicle at route end whose stuck timeout has
elapsed: the position becomes the randomly picked fallback station exactly,
speed becomes 0, and the stuck entry is deleted — whatever the backoff
stamp says. -/
theorem atEndBlock2_reloc (r : TickRand2) (now : ℚ) (w : Vehicle2) (ss : StuckState)
    (hAtEnd : w.route.atEnd = true)
    (hTimeout : ROUTE_FAILURE_TIMEOUT_MS ≤ now - ss.failedAt) :
    (atEndBlock2 r now w (some ss)).1.currentData.latitude =
      (FALLBACK_LOCATIONS.getD
        (⌊r.stationRoll * ((FALLBACK_LOCATIONS.length : ℕ) : ℚ)⌋).toNat ⟨0, 0⟩).latitude ∧
    (atEndBlock2 r now w (some ss)).1.currentData.longitude =
      (FALLBACK_LOCATIONS.getD
        (⌊r.stationRoll * ((FALLBACK_LOCATIONS.length : ℕ) : ℚ)⌋).toNat ⟨0, 0⟩).longitude ∧
    (atEndBlock2 r now w (some ss)).1.currentData.speed = 0 ∧
    (atEndBlock2 r now w (some ss)).2.1 = none := by
  simp only [atEndBlock2]
  rw [if_pos hAtEnd, if_pos hTimeout]
  rcases hng : w.nextRouteGenAt with _ | t
  · simp only [hng]
    refine ⟨?_, ?_, ?_, ?_⟩ <;> trivial
  · simp only [hng]
    by_cases hlt : now < t
    · rw [if_pos hlt]
      refine ⟨?_, ?_, ?_, ?_⟩ <;> trivial
    · rw [if_neg hlt]
      refine ⟨?_, ?_, ?_, ?_⟩ <;> trivial

/-- C9: a vehicle marked stuck (recorded failure time) whose stuck timeout
has elapsed is relocated on the next tick it spends at route end: its
position becomes exactly one of the configured fallback locations, its
speed ends the tick at 0, and its stuck state is cleared. -/
theorem c9_stuck_relocation (hav bear : ℚ → ℚ → ℚ → ℚ → ℚ) (expQ pow12 : ℚ → ℚ)
    (r : TickRand2) (now dtSec : ℚ) (v : Vehicle2) (est : Option EmergencyState)
    (ss : StuckState)
    (hAtEnd : v.route.atEnd = true)
    (hTimeout : ROUTE_FAILURE_TIMEOUT_MS ≤ now - ss.failedAt)
    (h0 : 0 ≤ r.stationRoll) (h1 : r.stationRoll < 1) :
    (∃ loc ∈ FALLBACK_LOCATIONS,
      (tick2 hav bear expQ pow12 r now dtSec v est (some ss)).1.currentData.latitude =
        loc.latitude ∧
      (tick2 hav bear expQ pow12 r now dtSec v est (some ss)).1.currentData.longitude =
        loc.longitude) ∧
    (tick2 hav bear expQ pow12 r now dtSec v est (some ss)).1.currentData.speed = 0 ∧
    (tick2 hav bear expQ pow12 r now dtSec v est (some ss)).2.2.1 = none := by
  have hAE2 : (invalidRouteStep2
      { speedStep2 r dtSec v with currentData :=
        { (speedStep2 r dtSec v).currentData with emergencyLights :=
          (emergencyStep now r.emergencyHold1 r.emergencyHold2 r.emergencyRoll est).isOn } }).route.atEnd
      = true :=
    invalidRouteStep2_atEnd _ hAtEnd
  have hblock := atEndBlock2_reloc r now
    (invalidRouteStep2
      { speedStep2 r dtSec v with currentData :=
        { (speedStep2 r dtSec v).currentData with emergencyLights :=
          (emergencyStep now r.emergencyHold1 r.emergencyHold2 r.emergencyRoll est).isOn } })
    ss hAE2 hTimeout
  have hidx : (⌊r.stationRoll * ((FALLBACK_LOCATIONS.length : ℕ) : ℚ)⌋).toNat <
      FALLBACK_LOCATIONS.length :=
    rollIdx_lt r.stationRoll FALLBACK_LOCATIONS.length h0 h1 (by decide)
  refine ⟨⟨FALLBACK_LOCATIONS.getD
      (⌊r.stationRoll * ((FALLBACK_LOCATIONS.length : ℕ) : ℚ)⌋).toNat ⟨0, 0⟩,
    getD_mem _ _ _ hidx, ?_, ?_⟩, ?_, ?_⟩
  · simp only [tick2, moveAlongRoute2_noop_atEnd hav bear _ _ hAE2,
      ite_lat2, ite_self, pushTelemetry2_lat]
    exact hblock.1
  · simp only [tick2, moveAlongRoute2_noop_atEnd hav bear _ _ hAE2,
      ite_lng2, ite_self, pushTelemetry2_lng]
    exact hblock.2.1
  · simp only [tick2, moveAlongRoute2_noop_atEnd hav bear _ _ hAE2,
      ite_speed2, pushTelemetry2_speed, hblock.2.2.1, ite_self]
  · simp only [tick2, moveAlongRoute2_noop_atEnd hav bear _ _ hAE2]
    exact hblock.2.2.2

/-- Witness for C9: a vehicle at route end, stuck since time 0, ticked at
`now = 180000` ms (exactly the 3-minute timeout). -/
theorem c9_stuck_relocation_witness :
    (v2Stuck.route.atEnd = true ∧
     ROUTE_FAILURE_TIMEOUT_MS ≤ (180000 : ℚ) - (⟨0, 1⟩ : StuckState).failedAt ∧
     (0 : ℚ) ≤ trZero2.stationRoll ∧ trZero2.stationRoll < 1) ∧
    ((∃ loc ∈ FALLBACK_LOCATIONS,
       (tick2 hav0 bear0 idQ pow0 trZero2 180000 2 v2Stuck none
         (some ⟨0, 1⟩)).1.currentData.latitude = loc.latitude ∧
       (tick2 hav0 bear0 idQ pow0 trZero2 180000 2 v2Stuck none
         (some ⟨0, 1⟩)).1.currentData.longitude = loc.longitude) ∧
     (tick2 hav0 bear0 idQ pow0 trZero2 180000 2 v2Stuck none
       (some ⟨0, 1⟩)).1.currentData.speed = 0 ∧
     (tick2 hav0 bear0 idQ pow0 trZero2 180000 2 v2Stuck none
       (some ⟨0, 1⟩)).2.2.1 = none) :=
  ⟨⟨rfl, by norm_num [ROUTE_FAILURE_TIMEOUT_MS], by norm_num [trZero2],
    by norm_num [trZero2]⟩,
   c9_stuck_relocation hav0 bear0 idQ pow0 trZero2 180000 2 v2Stuck none ⟨0, 1⟩
     rfl (by norm_num [ROUTE_FAILURE_TIMEOUT_MS]) (by norm_num [trZero2])
     (by norm_num [trZero2])⟩

